import Mathlib

/-!
Shallow embedding of the quantum light-source controller
(`examples/quantum_light_controller.py`) and of the device-adapter layer
(`src/adapters/device_adapters.py`).

Modelling conventions:
* Python floats become rationals (`ℚ`); all comparisons in the source are
  order comparisons, which `ℚ` reflects exactly.
* Methods that mutate `self` become functions `State → State × result`.
* Side effects that the specification talks about (event publication via
  `_trigger_callbacks`, subsystem calls, transport operations) are recorded
  in an explicit trace (`Act`, `TransportAct`) returned next to the result.
* Exceptions that the source catches and converts to a boolean/dict result
  are modelled by returning that result directly.
* The `threading.Timer` auto-stop of `start_emission` is modelled by a
  small world semantics (`World`, `World.step`): `start_emission` reports
  the duration it schedules, the world keeps the pending fire times, and
  advancing time fires every due timer by running `stop_emission` — the
  source stores no handle to the timer and never cancels it, and the world
  semantics mirrors that.
-/

namespace QuantumLight

/-- `LightSourceState` enum (lines 17-24). -/
inductive LightSourceState
  | off
  | standby
  | calibrating
  | ready
  | emitting
  | error
  deriving DecidableEq, Repr

/-- `OutputMode` enum (lines 26-30). -/
inductive OutputMode
  | continuous
  | pulsed
  | burst
  deriving DecidableEq, Repr

/-- `LightSourceConfig` dataclass (lines 32-39). -/
structure LightSourceConfig where
  wavelength : ℚ
  maxPower : ℚ
  stabilityTarget : ℚ
  warmupTime : ℚ
  calibrationInterval : ℤ
  deriving DecidableEq, Repr

/-- The dataclass defaults: 5.8e-9, 5.0e-9, 0.01, 30.0, 3600. -/
def defaultConfig : LightSourceConfig :=
  { wavelength := 58 / 10 ^ 10
    maxPower := 5 / 10 ^ 9
    stabilityTarget := 1 / 100
    warmupTime := 30
    calibrationInterval := 3600 }

/-- `EmissionParameters` dataclass (lines 41-48). -/
structure EmissionParameters where
  power : ℚ
  duration : ℚ := 0
  frequency : ℚ := 0
  dutyCycle : ℚ := 1
  mode : OutputMode := OutputMode.continuous
  deriving DecidableEq, Repr

/-- `QuantumJetSubsystem` state (lines 50-56). -/
structure QuantumJetSubsystem where
  status : String := "initialized"
  capsuleCount : ℕ := 0
  uniformity : ℚ := 95 / 100
  deriving DecidableEq, Repr

/-- `QuantumJetSubsystem.initialize` (lines 58-65): sets status and
capsule count, returns True. -/
def QuantumJetSubsystem.initialize (s : QuantumJetSubsystem) :
    QuantumJetSubsystem × Bool :=
  ({ s with status := "ready", capsuleCount := 5000 }, true)

/-- `QuantumJetSubsystem.shutdown` (lines 67-71). -/
def QuantumJetSubsystem.shutdown (s : QuantumJetSubsystem) :
    QuantumJetSubsystem :=
  { s with status := "off", capsuleCount := 0 }

/-- `QuantumJetSubsystem.calibrate` (lines 73-78): sets uniformity,
returns True. -/
def QuantumJetSubsystem.calibrate (s : QuantumJetSubsystem) :
    QuantumJetSubsystem × Bool :=
  ({ s with uniformity := 98 / 100 }, true)

/-- `QuantumJetSubsystem.configure_emission` (lines 80-82): logging only. -/
def QuantumJetSubsystem.configureEmission (s : QuantumJetSubsystem)
    (_params : EmissionParameters) : QuantumJetSubsystem :=
  s

/-- `ShenquOptimizerSubsystem` state (lines 92-98). -/
structure ShenquOptimizerSubsystem where
  optimizationActive : Bool := false
  currentPower : ℚ := 0
  stability : ℚ := 99 / 100
  deriving DecidableEq, Repr

/-- `ShenquOptimizerSubsystem.warm_up` (lines 100-104): logging only. -/
def ShenquOptimizerSubsystem.warmUp (s : ShenquOptimizerSubsystem) :
    ShenquOptimizerSubsystem :=
  s

/-- `ShenquOptimizerSubsystem.shutdown` (lines 106-109). -/
def ShenquOptimizerSubsystem.shutdown (s : ShenquOptimizerSubsystem) :
    ShenquOptimizerSubsystem :=
  { s with optimizationActive := false }

/-- `ShenquOptimizerSubsystem.calibrate` (lines 111-116): sets stability,
returns True. -/
def ShenquOptimizerSubsystem.calibrate (s : ShenquOptimizerSubsystem) :
    ShenquOptimizerSubsystem × Bool :=
  ({ s with stability := 995 / 1000 }, true)

/-- `start_real_time_optimization` (lines 118-121). -/
def ShenquOptimizerSubsystem.startRealTimeOptimization
    (s : ShenquOptimizerSubsystem) : ShenquOptimizerSubsystem :=
  { s with optimizationActive := true }

/-- `stop_real_time_optimization` (lines 123-126). -/
def ShenquOptimizerSubsystem.stopRealTimeOptimization
    (s : ShenquOptimizerSubsystem) : ShenquOptimizerSubsystem :=
  { s with optimizationActive := false }

/-- `adjust_power` (lines 128-132): records the power, returns True. -/
def ShenquOptimizerSubsystem.adjustPower (s : ShenquOptimizerSubsystem)
    (power : ℚ) : ShenquOptimizerSubsystem × Bool :=
  ({ s with currentPower := power }, true)

/-- `prepare_for_power` (lines 134-136): logging only. -/
def ShenquOptimizerSubsystem.prepareForPower (s : ShenquOptimizerSubsystem)
    (_power : ℚ) : ShenquOptimizerSubsystem :=
  s

/-- `configure_optimization` (lines 138-140): logging only. -/
def ShenquOptimizerSubsystem.configureOptimization
    (s : ShenquOptimizerSubsystem) (_params : EmissionParameters) :
    ShenquOptimizerSubsystem :=
  s

/-- The `metrics` dictionary of `PerformanceMonitor` (lines 155-159). -/
structure MonitorMetrics where
  stability : ℚ := 99 / 100
  efficiency : ℚ := 135 / 100
  temperature : ℚ := 25
  deriving DecidableEq, Repr

/-- `PerformanceMonitor` state (lines 150-159). -/
structure PerformanceMonitor where
  monitoringActive : Bool := false
  metrics : MonitorMetrics := {}
  deriving DecidableEq, Repr

/-- `calibrate_sensors` (lines 161-165): returns True. -/
def PerformanceMonitor.calibrateSensors (s : PerformanceMonitor) :
    PerformanceMonitor × Bool :=
  (s, true)

/-- `start_power_monitoring` (lines 167-170). -/
def PerformanceMonitor.startPowerMonitoring (s : PerformanceMonitor) :
    PerformanceMonitor :=
  { s with monitoringActive := true }

/-- `stop_power_monitoring` (lines 172-175). -/
def PerformanceMonitor.stopPowerMonitoring (s : PerformanceMonitor) :
    PerformanceMonitor :=
  { s with monitoringActive := false }

/-- `configure_monitoring` (lines 181-183): logging only. -/
def PerformanceMonitor.configureMonitoring (s : PerformanceMonitor)
    (_params : EmissionParameters) : PerformanceMonitor :=
  s

/-- Events published through `_trigger_callbacks` (lines 408-425):
`state_change` carries old and new state, `power_update` carries the new
power (the timestamp of the payload is wall-clock noise and not modelled). -/
inductive Ev
  | stateChange (old new : LightSourceState)
  | powerUpdate (power : ℚ)
  deriving DecidableEq, Repr

/-- Observable controller actions: event publications and subsystem calls,
in the order the source performs them. -/
inductive Act
  | publish (e : Ev)
  | jetInitialize
  | jetShutdown
  | jetCalibrate
  | jetConfigureEmission
  | optimizerWarmUp
  | optimizerShutdown
  | optimizerCalibrate
  | optimizerStartRTO
  | optimizerStopRTO
  | optimizerAdjustPower (power : ℚ)
  | optimizerPrepareForPower (power : ℚ)
  | optimizerConfigureOptimization
  | monitorCalibrateSensors
  | monitorStartMonitoring
  | monitorStopMonitoring
  | monitorConfigureMonitoring
  deriving DecidableEq, Repr

/-- The events published in a trace, in order. -/
def publishedEvents (tr : List Act) : List Ev :=
  tr.filterMap fun a =>
    match a with
    | Act.publish e => some e
    | _ => none

/-- `QuantumLightSourceController` state (lines 192-216).  Callback
functions do not influence control flow (their execution is modelled by
`triggerCallbacks` below), so the controller state carries the
configuration, the machine state, the powers and the three subsystems. -/
structure Controller where
  config : LightSourceConfig
  state : LightSourceState
  currentPower : ℚ
  operatingTime : ℚ
  quantumJet : QuantumJetSubsystem
  optimizer : ShenquOptimizerSubsystem
  monitor : PerformanceMonitor
  deriving DecidableEq, Repr

/-- `__init__` (lines 198-216): state Off, zero power, fresh subsystems. -/
def mkController (config : LightSourceConfig) : Controller :=
  { config := config
    state := LightSourceState.off
    currentPower := 0
    operatingTime := 0
    quantumJet := {}
    optimizer := {}
    monitor := {} }

/-- `_update_state` (lines 408-417): records the new state and publishes a
`state_change` event with the old and new state. -/
def Controller.updateState (c : Controller) (newState : LightSourceState) :
    Controller × List Act :=
  ({ c with state := newState },
   [Act.publish (Ev.stateChange c.state newState)])

/-- The warm-up table of `_execute_warmup_sequence` (lines 376-381):
power fraction and hold duration. -/
def warmupSteps : List (ℚ × ℚ) :=
  [(1 / 10, 2), (3 / 10, 3), (6 / 10, 3), (8 / 10, 2)]

/-- `_execute_warmup_sequence` (lines 372-386): calls
`optimizer.prepare_for_power(max_power * ratio)` for each step (the
`time.sleep` holds are wall-clock only).  `prepare_for_power` leaves the
optimizer state unchanged, so only the trace records the calls. -/
def Controller.executeWarmupSequence (c : Controller) :
    Controller × List Act :=
  (c, warmupSteps.map fun step =>
        Act.optimizerPrepareForPower (c.config.maxPower * step.1))

/-- `power_on` (lines 218-242): rejected unless the state is Off;
otherwise Standby, jet initialize, optimizer warm-up, warm-up ramp, Ready.
None of the modelled steps raises, so the success branch always completes. -/
def Controller.powerOn (c : Controller) : Controller × Bool × List Act :=
  if c.state ≠ LightSourceState.off then (c, false, [])
  else
    let s1 := c.updateState LightSourceState.standby
    let jet := QuantumJetSubsystem.initialize s1.1.quantumJet
    let c2 : Controller := { s1.1 with quantumJet := jet.1 }
    let c3 : Controller := { c2 with optimizer := c2.optimizer.warmUp }
    let s4 := c3.executeWarmupSequence
    let s5 := s4.1.updateState LightSourceState.ready
    (s5.1, true,
     s1.2 ++ [Act.jetInitialize, Act.optimizerWarmUp] ++ s4.2 ++ s5.2)

/-- `stop_emission` (lines 290-301): no-op unless Emitting; otherwise stop
the optimizer loop and the monitor, transition to Ready, zero the power. -/
def Controller.stopEmission (c : Controller) : Controller × List Act :=
  if c.state = LightSourceState.emitting then
    let c1 : Controller :=
      { c with optimizer := c.optimizer.stopRealTimeOptimization
               monitor := c.monitor.stopPowerMonitoring }
    let s2 := c1.updateState LightSourceState.ready
    ({ s2.1 with currentPower := 0 },
     [Act.optimizerStopRTO, Act.monitorStopMonitoring] ++ s2.2)
  else (c, [])

/-- `power_off` (lines 244-255): stop emission, shut down the optimizer,
shut down the jet, transition to Off, zero the power.  The method returns
nothing and no modelled step fails. -/
def Controller.powerOff (c : Controller) : Controller × List Act :=
  let s1 := c.stopEmission
  let c2 : Controller :=
    { s1.1 with optimizer := s1.1.optimizer.shutdown
                quantumJet := s1.1.quantumJet.shutdown }
  let s3 := c2.updateState LightSourceState.off
  ({ s3.1 with currentPower := 0 },
   s1.2 ++ [Act.optimizerShutdown, Act.jetShutdown] ++ s3.2)

/-- `_validate_emission_parameters` (lines 388-400) as a predicate: the
source raises `ValueError` on the first failed check, `start_emission`
catches it and returns False. -/
def validateEmissionParameters (config : LightSourceConfig)
    (params : EmissionParameters) : Bool :=
  if params.power ≤ 0 ∨ params.power > config.maxPower then false
  else if params.duration < 0 then false
  else if params.frequency < 0 then false
  else if params.dutyCycle ≤ 0 ∨ params.dutyCycle > 1 then false
  else true

/-- `_apply_emission_parameters` (lines 402-406): configure the three
subsystems (each call is logging only). -/
def Controller.applyEmissionParameters (c : Controller)
    (params : EmissionParameters) : Controller × List Act :=
  ({ c with quantumJet := c.quantumJet.configureEmission params
            optimizer := c.optimizer.configureOptimization params
            monitor := c.monitor.configureMonitoring params },
   [Act.jetConfigureEmission, Act.optimizerConfigureOptimization,
    Act.monitorConfigureMonitoring])

/-- `start_emission` (lines 257-288): rejected unless Ready; a validation
failure raises and is caught, returning False with nothing changed.  On
success: apply parameters, start real-time optimization, transition to
Emitting, set `current_power`, start monitoring, and when `duration > 0`
schedule `threading.Timer(duration, stop_emission)` — the scheduled
duration is returned as the fourth component (`none` when no timer is
started); the source keeps no handle to the timer. -/
def Controller.startEmission (c : Controller) (params : EmissionParameters) :
    Controller × Bool × List Act × Option ℚ :=
  if c.state ≠ LightSourceState.ready then (c, false, [], none)
  else if ¬ validateEmissionParameters c.config params then
    (c, false, [], none)
  else
    let s1 := c.applyEmissionParameters params
    let c2 : Controller :=
      { s1.1 with optimizer := s1.1.optimizer.startRealTimeOptimization }
    let s3 := c2.updateState LightSourceState.emitting
    let c4 : Controller := { s3.1 with currentPower := params.power }
    let c5 : Controller :=
      { c4 with monitor := c4.monitor.startPowerMonitoring }
    (c5, true,
     s1.2 ++ [Act.optimizerStartRTO] ++ s3.2 ++ [Act.monitorStartMonitoring],
     if params.duration > 0 then some params.duration else none)

/-- `set_power` (lines 303-323): rejected when `power < 0` or
`power > max_power` (note: `power = 0` passes this check), rejected when
the state is not Emitting; otherwise `optimizer.adjust_power`, and on its
success update `current_power` and publish a `power_update` event. -/
def Controller.setPower (c : Controller) (power : ℚ) :
    Controller × Bool × List Act :=
  if power < 0 ∨ power > c.config.maxPower then (c, false, [])
  else if c.state ≠ LightSourceState.emitting then (c, false, [])
  else
    let adj := c.optimizer.adjustPower power
    let c1 : Controller := { c with optimizer := adj.1 }
    if adj.2 then
      ({ c1 with currentPower := power }, true,
       [Act.optimizerAdjustPower power, Act.publish (Ev.powerUpdate power)])
    else (c1, false, [Act.optimizerAdjustPower power])

/-- `calibrate` (lines 325-350) with the boolean results of the three
subsystem calibration calls abstracted: transition to Calibrating, run the
three subsystem calibrations (the dictionary literal evaluates all three
before the aggregate check), and on `all(...)` transition to Ready and
return True, otherwise transition to Error and return False.  The concrete
simulated subsystems always return True; `Controller.calibrate` below
instantiates the three results from them. -/
def Controller.calibrateWith (c : Controller) (jetOk optOk sensorsOk : Bool) :
    Controller × Bool × List Act :=
  let s0 := c.updateState LightSourceState.calibrating
  let c1 : Controller :=
    { s0.1 with quantumJet := (s0.1.quantumJet.calibrate).1
                optimizer := (s0.1.optimizer.calibrate).1
                monitor := (s0.1.monitor.calibrateSensors).1 }
  let acts := [Act.jetCalibrate, Act.optimizerCalibrate,
               Act.monitorCalibrateSensors]
  if jetOk && optOk && sensorsOk then
    let s2 := c1.updateState LightSourceState.ready
    (s2.1, true, s0.2 ++ acts ++ s2.2)
  else
    let s2 := c1.updateState LightSourceState.error
    (s2.1, false, s0.2 ++ acts ++ s2.2)

/-- `calibrate` (lines 325-350) with the concrete subsystem results. -/
def Controller.calibrate (c : Controller) : Controller × Bool × List Act :=
  c.calibrateWith (c.quantumJet.calibrate).2 (c.optimizer.calibrate).2
    (c.monitor.calibrateSensors).2

/-- Spec invariant 2: `current_power` is nonzero only while Emitting. -/
def PowerInv (c : Controller) : Prop :=
  c.currentPower ≠ 0 → c.state = LightSourceState.emitting

instance (c : Controller) : Decidable (PowerInv c) := by
  unfold PowerInv; infer_instance

/-- The world around a controller: current time and the fire times of the
pending `threading.Timer(duration, stop_emission)` timers.  The source
stores no handle to a started timer and no operation cancels one. -/
structure World where
  ctrl : Controller
  now : ℚ
  timers : List ℚ
  deriving DecidableEq, Repr

/-- A command issued to the controller, or the passage of time. -/
inductive Cmd
  | powerOnCmd
  | powerOffCmd
  | startEmissionCmd (params : EmissionParameters)
  | stopEmissionCmd
  | setPowerCmd (power : ℚ)
  | calibrateCmd
  | advance (dt : ℚ)
  deriving DecidableEq, Repr

/-- Each due timer runs `stop_emission` (the callback passed to
`threading.Timer` at line 282). -/
def fireDue (c : Controller) (due : List ℚ) : Controller :=
  due.foldl (fun acc _ => (acc.stopEmission).1) c

/-- World semantics.  `stop_emission` and `power_off` leave the pending
timers untouched, exactly as the source does (no handle is kept, nothing
is cancelled); `advance dt` moves the clock and fires every due timer. -/
def World.step (w : World) : Cmd → World
  | Cmd.powerOnCmd => { w with ctrl := (w.ctrl.powerOn).1 }
  | Cmd.powerOffCmd => { w with ctrl := (w.ctrl.powerOff).1 }
  | Cmd.startEmissionCmd params =>
      let r := w.ctrl.startEmission params
      { w with ctrl := r.1
               timers := w.timers ++
                 (match r.2.2.2 with
                  | some d => [w.now + d]
                  | none => []) }
  | Cmd.stopEmissionCmd => { w with ctrl := (w.ctrl.stopEmission).1 }
  | Cmd.setPowerCmd power => { w with ctrl := (w.ctrl.setPower power).1 }
  | Cmd.calibrateCmd => { w with ctrl := (w.ctrl.calibrate).1 }
  | Cmd.advance dt =>
      let t := w.now + dt
      { ctrl := fireDue w.ctrl (w.timers.filter fun ft => decide (ft ≤ t))
        now := t
        timers := w.timers.filter fun ft => !(decide (ft ≤ t)) }

/-- Run a command list from a world. -/
def World.run (w : World) (cmds : List Cmd) : World :=
  cmds.foldl World.step w

/-- Outcome of one callback invocation: it returns normally or raises (the
`except` clause at lines 424-425 logs the exception). -/
inductive CallbackOutcome
  | ok
  | raised
  deriving DecidableEq, Repr

/-- A subscriber is modelled by its behaviour on the payload. -/
abbrev Subscriber (α : Type) := α → CallbackOutcome

/-- `_trigger_callbacks` (lines 419-425): invoke each callback in list
order inside try/except — a raising callback is logged and the loop
continues.  The returned list is the per-subscriber outcome log. -/
def triggerCallbacks {α : Type} (callbackList : List (Subscriber α))
    (data : α) : List CallbackOutcome :=
  match callbackList with
  | [] => []
  | cb :: rest => cb data :: triggerCallbacks rest data

/-- The `_callbacks` dictionary (lines 210-214): three fixed event names. -/
structure CallbackRegistry (α : Type) where
  stateChangeCbs : List (Subscriber α)
  powerUpdateCbs : List (Subscriber α)
  errorCbs : List (Subscriber α)

/-- `self._callbacks.get(event, [])` (line 421): unknown event names have
no subscribers. -/
def getCallbacks {α : Type} (r : CallbackRegistry α) (event : String) :
    List (Subscriber α) :=
  if event = "state_change" then r.stateChangeCbs
  else if event = "power_update" then r.powerUpdateCbs
  else if event = "error" then r.errorCbs
  else []

/-- `register_callback` (lines 367-370): appends when the event name is
one of the three keys, otherwise does nothing. -/
def registerCallback {α : Type} (r : CallbackRegistry α) (event : String)
    (cb : Subscriber α) : CallbackRegistry α :=
  if event = "state_change" then
    { r with stateChangeCbs := r.stateChangeCbs ++ [cb] }
  else if event = "power_update" then
    { r with powerUpdateCbs := r.powerUpdateCbs ++ [cb] }
  else if event = "error" then
    { r with errorCbs := r.errorCbs ++ [cb] }
  else r

/-! ### Device-adapter layer (`src/adapters/device_adapters.py`) -/

/-- Transport operations an adapter may attempt. -/
inductive TransportAct
  | socketSend (msg : String)
  | socketRecv
  | serialWrite (msg : String)
  | serialReadLine
  deriving DecidableEq, Repr

/-- Adapter/manager responses, mirroring the returned dictionaries:
`{"error": "設備未連接"}` (not connected), a transport/protocol failure
caught by the `except` clause, `{"error": "設備未註冊: id"}` (unknown id),
the Modbus success dictionary, and a response decoded from the wire. -/
inductive DeviceResponse
  | errorNotConnected
  | errorTransport
  | errorNotRegistered (deviceId : String)
  | okModbus
  | decoded (line : String)
  deriving DecidableEq, Repr

/-- `EthernetAdapter` state (lines 31-39). -/
structure EthernetAdapter where
  host : String
  port : ℕ
  timeout : ℚ
  connected : Bool
  deriving DecidableEq, Repr

/-- `EthernetAdapter.send_command` (lines 57-78): when not connected,
return the not-connected error without touching the socket.  When
connected, the message literal evaluates `time.time()`, but the module
never imports `time`, so a `NameError` is raised before any socket call;
the `except` clause converts it to the transport-error dictionary — so
the connected path performs no transport operation either. -/
def EthernetAdapter.sendCommand (a : EthernetAdapter) (_command : String)
    (_parametersJson : String) : DeviceResponse × List TransportAct :=
  if !a.connected then (DeviceResponse.errorNotConnected, [])
  else (DeviceResponse.errorTransport, [])

/-- `SerialAdapter` state (lines 83-90). -/
structure SerialAdapter where
  port : String
  baudrate : ℕ
  connected : Bool
  deriving DecidableEq, Repr

/-- `SerialAdapter.send_command` (lines 110-124): when not connected,
return the not-connected error without touching the line.  When connected,
write the framed command, read a response line and decode it; `wire`
abstracts what the transport and `json.loads` yield — `some line` is a
decoded response, `none` an exception caught by the `except` clause
(modelled as occurring at the read, after the write). -/
def SerialAdapter.sendCommand (a : SerialAdapter) (wire : Option String)
    (command : String) (parametersJson : String) :
    DeviceResponse × List TransportAct :=
  if !a.connected then (DeviceResponse.errorNotConnected, [])
  else
    match wire with
    | some line =>
        (DeviceResponse.decoded line,
         [TransportAct.serialWrite (command ++ ":" ++ parametersJson),
          TransportAct.serialReadLine])
    | none =>
        (DeviceResponse.errorTransport,
         [TransportAct.serialWrite (command ++ ":" ++ parametersJson),
          TransportAct.serialReadLine])

/-- `ModbusTCPAdapter` state (lines 129-135). -/
structure ModbusTCPAdapter where
  host : String
  port : ℕ
  connected : Bool
  deriving DecidableEq, Repr

/-- `ModbusTCPAdapter.send_command` (lines 145-150): when not connected,
return the not-connected error; otherwise the stubbed success dictionary
(the simplified source performs no transport operation). -/
def ModbusTCPAdapter.sendCommand (a : ModbusTCPAdapter) (_command : String)
    (_parametersJson : String) : DeviceResponse × List TransportAct :=
  if !a.connected then (DeviceResponse.errorNotConnected, [])
  else (DeviceResponse.okModbus, [])

/-- The adapter variants held by the manager. -/
inductive Adapter
  | ethernet (a : EthernetAdapter)
  | serialLine (a : SerialAdapter)
  | modbus (a : ModbusTCPAdapter)
  deriving DecidableEq, Repr

/-- Polymorphic dispatch of `send_command`; `wire` is only consulted by
the serial variant. -/
def Adapter.sendCommand (ad : Adapter) (wire : Option String)
    (command : String) (parametersJson : String) :
    DeviceResponse × List TransportAct :=
  match ad with
  | Adapter.ethernet a => a.sendCommand command parametersJson
  | Adapter.serialLine a => a.sendCommand wire command parametersJson
  | Adapter.modbus a => a.sendCommand command parametersJson

/-- `DeviceManager` state (lines 156-161): the registration map
`device_id → adapter` and the per-device configuration records, modelled
as association lists. -/
structure DeviceManager where
  adapters : List (String × Adapter)
  deviceConfigs : List (String × String)
  deriving DecidableEq, Repr

/-- `DeviceManager.send_to_device` (lines 175-181): a not-registered error
for an unknown id, otherwise delegate to that device's adapter.  The
method reads but never writes the registration map; the manager is
returned to make that explicit. -/
def DeviceManager.sendToDevice (m : DeviceManager) (wire : Option String)
    (deviceId : String) (command : String) (parametersJson : String) :
    DeviceManager × DeviceResponse × List TransportAct :=
  match m.adapters.lookup deviceId with
  | none => (m, DeviceResponse.errorNotRegistered deviceId, [])
  | some adapter => (m, adapter.sendCommand wire command parametersJson)

/-! ### Concrete states used as witnesses and counterexamples.
All rational fields are integer-valued so that the kernel can evaluate
them (the `ℚ` field defaults involve division, which does not reduce). -/

/-- A concrete configuration with `max_power = 5`. -/
def exCfg : LightSourceConfig :=
  { wavelength := 1
    maxPower := 5
    stabilityTarget := 1
    warmupTime := 0
    calibrationInterval := 3600 }

/-- A controller observed mid-emission at power 3. -/
def exEmitting : Controller :=
  { config := exCfg
    state := LightSourceState.emitting
    currentPower := 3
    operatingTime := 0
    quantumJet := { status := "ready", capsuleCount := 5000, uniformity := 1 }
    optimizer := { optimizationActive := true, currentPower := 3,
                   stability := 1 }
    monitor := { monitoringActive := true,
                 metrics := { stability := 1, efficiency := 1,
                              temperature := 25 } } }

/-- A controller in the Ready state. -/
def exReady : Controller :=
  { config := exCfg
    state := LightSourceState.ready
    currentPower := 0
    operatingTime := 0
    quantumJet := { status := "ready", capsuleCount := 5000, uniformity := 1 }
    optimizer := { stability := 1 }
    monitor := { metrics := { stability := 1, efficiency := 1,
                              temperature := 25 } } }

/-- An emission request that fails validation against `exCfg`
(its power 6 exceeds `max_power = 5`). -/
def pOverMax : EmissionParameters := { power := 6, duration := 1 }

/-- First emission of the stale-timer run: power 3, auto-stop after 5. -/
def pStale1 : EmissionParameters := { power := 3, duration := 5 }

/-- Second emission of the stale-timer run: power 2, auto-stop after 100. -/
def pStale2 : EmissionParameters := { power := 2, duration := 100 }

/-- The stale-timer run starts from a Ready controller at time 0. -/
def staleW : World := { ctrl := exReady, now := 0, timers := [] }

/-- Stale-timer run: start an emission with duration 5, stop it manually
at time 1, start a second emission at time 2 with duration 100. -/
def staleCmds : List Cmd :=
  [Cmd.startEmissionCmd pStale1, Cmd.advance 1, Cmd.stopEmissionCmd,
   Cmd.advance 1, Cmd.startEmissionCmd pStale2]

/-- A subscriber that always returns normally. -/
def cbOk : Subscriber ℕ := fun _ => CallbackOutcome.ok

/-- A subscriber that always raises. -/
def cbRaise : Subscriber ℕ := fun _ => CallbackOutcome.raised

/-- A registry with a raising subscriber between two healthy ones. -/
def exRegistry : CallbackRegistry ℕ :=
  { stateChangeCbs := [cbOk, cbRaise, cbOk]
    powerUpdateCbs := []
    errorCbs := [] }

/-- A disconnected network adapter. -/
def exEth : EthernetAdapter :=
  { host := "10.0.0.7", port := 5025, timeout := 5, connected := false }

/-- A disconnected serial adapter. -/
def exSer : SerialAdapter :=
  { port := "COM3", baudrate := 9600, connected := false }

/-- A disconnected Modbus adapter. -/
def exModbus : ModbusTCPAdapter :=
  { host := "10.0.0.8", port := 502, connected := false }

/-- A manager with a single registered device named stage. -/
def exManager : DeviceManager :=
  { adapters := [("stage", Adapter.modbus exModbus)]
    deviceConfigs := [("stage", "default")] }

/-! ### Theorems -/

/-- Claim C10: calling `power_on` when the state is anything other than
Off returns false and leaves the controller (state, current power, all
subsystems) unchanged — no Standby transition, no subsystem
initialization, no warm-up ramp: the result is the unchanged controller,
a false result and an empty action trace. -/
theorem claim_C10_power_on_guard (c : Controller)
    (h : c.state ≠ LightSourceState.off) :
    c.powerOn = (c, false, []) := by
  unfold Controller.powerOn
  simp [h]

/-- Witness for C10 at a controller observed mid-emission. -/
theorem claim_C10_witness :
    exEmitting.state ≠ LightSourceState.off ∧
    exEmitting.powerOn = (exEmitting, false, []) :=
  ⟨by decide, claim_C10_power_on_guard exEmitting (by decide)⟩

/-- Claim C8: for each adapter variant whose connected flag is false,
`send_command` returns the explicit not-connected error and attempts no
transport operation, for every command, parameter record and wire
behaviour. -/
theorem claim_C8_not_connected (eth : EthernetAdapter) (ser : SerialAdapter)
    (mb : ModbusTCPAdapter) (wire : Option String)
    (command parametersJson : String) :
    (eth.connected = false →
      eth.sendCommand command parametersJson =
        (DeviceResponse.errorNotConnected, [])) ∧
    (ser.connected = false →
      ser.sendCommand wire command parametersJson =
        (DeviceResponse.errorNotConnected, [])) ∧
    (mb.connected = false →
      mb.sendCommand command parametersJson =
        (DeviceResponse.errorNotConnected, [])) := by
  refine ⟨fun h => ?_, fun h => ?_, fun h => ?_⟩ <;>
    simp [EthernetAdapter.sendCommand, SerialAdapter.sendCommand,
      ModbusTCPAdapter.sendCommand, h]

/-- Witness for C8 at the three concrete disconnected adapters. -/
theorem claim_C8_witness :
    (exEth.connected = false ∧
      exEth.sendCommand "move" "{}" = (DeviceResponse.errorNotConnected, [])) ∧
    (exSer.connected = false ∧
      exSer.sendCommand none "move" "{}" =
        (DeviceResponse.errorNotConnected, [])) ∧
    (exModbus.connected = false ∧
      exModbus.sendCommand "move" "{}" =
        (DeviceResponse.errorNotConnected, [])) :=
  ⟨⟨rfl, (claim_C8_not_connected exEth exSer exModbus none "move" "{}").1 rfl⟩,
   ⟨rfl, (claim_C8_not_connected exEth exSer exModbus none "move" "{}").2.1 rfl⟩,
   ⟨rfl, (claim_C8_not_connected exEth exSer exModbus none "move" "{}").2.2 rfl⟩⟩

/-- Claim C9: `send_to_device` returns a not-registered error when the id
is not in the registration map and otherwise exactly the delegated
adapter result, leaving the registration map unchanged in both cases. -/
theorem claim_C9_send_routing (m : DeviceManager) (wire : Option String)
    (deviceId command parametersJson : String) :
    (m.sendToDevice wire deviceId command parametersJson).1 = m ∧
    (m.adapters.lookup deviceId = none →
      m.sendToDevice wire deviceId command parametersJson =
        (m, DeviceResponse.errorNotRegistered deviceId, [])) ∧
    (∀ ad : Adapter, m.adapters.lookup deviceId = some ad →
      (m.sendToDevice wire deviceId command parametersJson).2 =
        ad.sendCommand wire command parametersJson) := by
  unfold DeviceManager.sendToDevice
  cases h : m.adapters.lookup deviceId <;> simp [h]

/-- Witness for C9: an unregistered id and the registered id. -/
theorem claim_C9_witness :
    exManager.adapters.lookup "laser" = none ∧
    exManager.sendToDevice none "laser" "move" "{}" =
      (exManager, DeviceResponse.errorNotRegistered "laser", []) ∧
    exManager.adapters.lookup "stage" = some (Adapter.modbus exModbus) ∧
    (exManager.sendToDevice none "stage" "move" "{}").2 =
      (Adapter.modbus exModbus).sendCommand none "move" "{}" :=
  ⟨by decide,
   (claim_C9_send_routing exManager none "laser" "move" "{}").2.1 (by decide),
   by decide,
   (claim_C9_send_routing exManager none "stage" "move" "{}").2.2
     (Adapter.modbus exModbus) (by decide)⟩

/-- Delivery invokes each callback once, in list order. -/
theorem triggerCallbacks_eq_map {α : Type} (cbs : List (Subscriber α))
    (data : α) :
    triggerCallbacks cbs data = cbs.map fun cb => cb data := by
  induction cbs with
  | nil => rfl
  | cons cb rest ih => simp [triggerCallbacks, ih]

/-- Claim C7: publishing an event invokes every subscriber registered for
that event name, once each and in registration order (the outcome log is
the pointwise image of the subscriber list), and a raising subscriber
does not prevent the remaining subscribers from being invoked; the
delivery function is total, so no subscriber exception propagates into
the controller operation that published the event. -/
theorem claim_C7_callback_delivery {α : Type} (r : CallbackRegistry α)
    (event : String) (data : α) (cbs1 cbs2 : List (Subscriber α))
    (cb : Subscriber α) :
    triggerCallbacks (getCallbacks r event) data =
      (getCallbacks r event).map (fun c => c data) ∧
    (cb data = CallbackOutcome.raised →
      triggerCallbacks (cbs1 ++ cb :: cbs2) data =
        triggerCallbacks cbs1 data ++
          CallbackOutcome.raised :: triggerCallbacks cbs2 data) := by
  refine ⟨triggerCallbacks_eq_map _ _, fun h => ?_⟩
  simp [triggerCallbacks_eq_map, h]

/-- Witness for C7: a raising subscriber sits between two healthy ones;
both neighbours are still invoked and delivery returns normally. -/
theorem claim_C7_witness :
    cbRaise 0 = CallbackOutcome.raised ∧
    triggerCallbacks ([cbOk] ++ cbRaise :: [cbOk]) 0 =
      triggerCallbacks [cbOk] 0 ++
        CallbackOutcome.raised :: triggerCallbacks [cbOk] 0 :=
  ⟨rfl,
   (claim_C7_callback_delivery exRegistry "state_change" 0 [cbOk] [cbOk]
     cbRaise).2 rfl⟩

/-- Claim C1, counterexample: the claim says `set_power(p)` is rejected
whenever p lies outside the interval (0, max_power]; but the source only
rejects `power < 0 or power > max_power`, so p = 0 — which is outside
(0, max_power] — is accepted while Emitting: the call returns success,
changes `current_power` (from 3 to 0) and publishes a `power_update`
event. -/
theorem claim_C1_counterexample :
    ¬ (0 < (0 : ℚ) ∧ (0 : ℚ) ≤ exEmitting.config.maxPower) ∧
    exEmitting.state = LightSourceState.emitting ∧
    (exEmitting.setPower 0).2.1 = true ∧
    (exEmitting.setPower 0).1.currentPower ≠ exEmitting.currentPower ∧
    publishedEvents (exEmitting.setPower 0).2.2 = [Ev.powerUpdate 0] := by
  refine ⟨by decide, rfl, rfl, by decide, rfl⟩

/-- Claim C1 as amended: `set_power(p)` is rejected (false result, whole
controller unchanged, no action, hence no event) whenever the state is
not Emitting or p lies outside the closed interval [0, max_power]; and
for every p with 0 ≤ p ≤ max_power, `set_power(p)` while Emitting
succeeds, updates `current_power` to p, stays Emitting and publishes
exactly one `power_update` event whose payload is p. -/
theorem claim_C1_amended (c : Controller) (p : ℚ) :
    ((c.state ≠ LightSourceState.emitting ∨ p < 0 ∨ c.config.maxPower < p) →
      c.setPower p = (c, false, [])) ∧
    ((c.state = LightSourceState.emitting ∧ 0 ≤ p ∧ p ≤ c.config.maxPower) →
      (c.setPower p).2.1 = true ∧
      (c.setPower p).1.currentPower = p ∧
      (c.setPower p).1.state = LightSourceState.emitting ∧
      publishedEvents (c.setPower p).2.2 = [Ev.powerUpdate p]) := by
  unfold Controller.setPower
  constructor
  · intro h
    rcases h with h | h | h
    · rcases le_or_lt p c.config.maxPower with hle | hgt
      · simp [h, hle.not_lt]
      · simp [hgt]
    · simp [h]
    · simp [h]
  · rintro ⟨hs, h0, hmax⟩
    simp [hs, h0.not_lt, hmax.not_lt, ShenquOptimizerSubsystem.adjustPower,
      publishedEvents]

/-- Witness for C1 as amended, at p = 2 while Emitting. -/
theorem claim_C1_witness :
    (exEmitting.state = LightSourceState.emitting ∧ (0 : ℚ) ≤ 2 ∧
      (2 : ℚ) ≤ exEmitting.config.maxPower) ∧
    ((exEmitting.setPower 2).2.1 = true ∧
      (exEmitting.setPower 2).1.currentPower = 2 ∧
      (exEmitting.setPower 2).1.state = LightSourceState.emitting ∧
      publishedEvents (exEmitting.setPower 2).2.2 = [Ev.powerUpdate 2]) :=
  ⟨by decide, (claim_C1_amended exEmitting 2).2 (by decide)⟩

/-- Claim C3: `start_emission` changes the controller state only when the
current state is exactly Ready and the request passes validation — power
in (0, max_power], duration ≥ 0, frequency ≥ 0, duty cycle in (0, 1] —
and any rejection (wrong state or validation failure) returns a failure
result and leaves the controller entirely unchanged, performing no
action and scheduling no timer. -/
theorem claim_C3_start_emission_guard (c : Controller)
    (p : EmissionParameters) :
    (validateEmissionParameters c.config p = true ↔
      (0 < p.power ∧ p.power ≤ c.config.maxPower ∧ 0 ≤ p.duration ∧
       0 ≤ p.frequency ∧ 0 < p.dutyCycle ∧ p.dutyCycle ≤ 1)) ∧
    ((c.startEmission p).1.state ≠ c.state →
      c.state = LightSourceState.ready ∧
      validateEmissionParameters c.config p = true) ∧
    (¬ (c.state = LightSourceState.ready ∧
        validateEmissionParameters c.config p = true) →
      c.startEmission p = (c, false, [], none)) := by
  have hval : validateEmissionParameters c.config p = true ↔
      (0 < p.power ∧ p.power ≤ c.config.maxPower ∧ 0 ≤ p.duration ∧
       0 ≤ p.frequency ∧ 0 < p.dutyCycle ∧ p.dutyCycle ≤ 1) := by
    unfold validateEmissionParameters
    split_ifs with h1 h2 h3 h4
    · constructor
      · intro h
        exact absurd h (by simp)
      · rintro ⟨hp, hm, _, _, _, _⟩
        rcases h1 with h1 | h1
        · exact absurd hp h1.not_lt
        · exact absurd h1 hm.not_lt
    · constructor
      · intro h
        exact absurd h (by simp)
      · rintro ⟨_, _, hd, _, _, _⟩
        exact absurd h2 hd.not_lt
    · constructor
      · intro h
        exact absurd h (by simp)
      · rintro ⟨_, _, _, hf, _, _⟩
        exact absurd h3 hf.not_lt
    · constructor
      · intro h
        exact absurd h (by simp)
      · rintro ⟨_, _, _, _, hd1, hd2⟩
        rcases h4 with h4 | h4
        · exact absurd hd1 h4.not_lt
        · exact absurd h4 hd2.not_lt
    · push_neg at h1 h4
      constructor
      · intro _
        exact ⟨h1.1, h1.2, not_lt.mp h2, not_lt.mp h3, h4.1, h4.2⟩
      · intro _
        rfl
  have hrej : ¬ (c.state = LightSourceState.ready ∧
      validateEmissionParameters c.config p = true) →
      c.startEmission p = (c, false, [], none) := by
    intro h
    unfold Controller.startEmission
    by_cases hs : c.state = LightSourceState.ready
    · have hv : ¬ validateEmissionParameters c.config p = true :=
        fun hv => h ⟨hs, hv⟩
      simp [hs, hv]
    · simp [hs]
  refine ⟨hval, fun h => ?_, hrej⟩
  by_cases hg : c.state = LightSourceState.ready ∧
      validateEmissionParameters c.config p = true
  · exact hg
  · exact absurd (by rw [hrej hg]) h

/-- Witness for C3: the spec scenario of a request whose power 6 exceeds
`max_power = 5` is rejected from Ready with no change. -/
theorem claim_C3_witness :
    ¬ (exReady.state = LightSourceState.ready ∧
       validateEmissionParameters exReady.config pOverMax = true) ∧
    exReady.startEmission pOverMax = (exReady, false, [], none) :=
  ⟨by decide, (claim_C3_start_emission_guard exReady pOverMax).2.2 (by decide)⟩

/-- Claim C5: `calibrate` — with the three subsystem calibration results
abstracted as booleans, the concrete simulated subsystems always
reporting success — first transitions to Calibrating (first published
event), runs calibration on all three subsystems (all three calls appear
in the trace even when one fails, as the source builds the result
dictionary before aggregating), returns the conjunction of the three
results, ends in Ready exactly when all three succeed and in Error
otherwise; `Controller.calibrate` is the instance at the concrete
subsystem results. -/
theorem claim_C5_calibrate (c : Controller) (jetOk optOk sensorsOk : Bool) :
    (c.calibrateWith jetOk optOk sensorsOk).2.1 =
      (jetOk && optOk && sensorsOk) ∧
    (c.calibrateWith jetOk optOk sensorsOk).1.state =
      (if (jetOk && optOk && sensorsOk) = true then LightSourceState.ready
       else LightSourceState.error) ∧
    (c.calibrateWith jetOk optOk sensorsOk).2.2 =
      [Act.publish (Ev.stateChange c.state LightSourceState.calibrating),
       Act.jetCalibrate, Act.optimizerCalibrate, Act.monitorCalibrateSensors,
       Act.publish (Ev.stateChange LightSourceState.calibrating
         (if (jetOk && optOk && sensorsOk) = true then LightSourceState.ready
          else LightSourceState.error))] ∧
    c.calibrate = c.calibrateWith true true true := by
  by_cases h : (jetOk && optOk && sensorsOk) = true
  · simp [Controller.calibrateWith, Controller.calibrate,
      Controller.updateState, QuantumJetSubsystem.calibrate,
      ShenquOptimizerSubsystem.calibrate, PerformanceMonitor.calibrateSensors,
      h]
  · simp [Controller.calibrateWith, Controller.calibrate,
      Controller.updateState, QuantumJetSubsystem.calibrate,
      ShenquOptimizerSubsystem.calibrate, PerformanceMonitor.calibrateSensors,
      h]

/-- Claim C4: for every controller state, `power_off` results in state Off
with `current_power = 0`; the action trace shows it runs the
`stop_emission` body first exactly when the state is Emitting, then shuts
down the optimizer and then the particle-source subsystem in that order;
and it is idempotent — a second call returns the very same controller.
The method is total and returns no failure. -/
theorem claim_C4_power_off (c : Controller) :
    (c.powerOff).1.state = LightSourceState.off ∧
    (c.powerOff).1.currentPower = 0 ∧
    (c.powerOff).2 =
      (if c.state = LightSourceState.emitting then
        [Act.optimizerStopRTO, Act.monitorStopMonitoring,
         Act.publish (Ev.stateChange LightSourceState.emitting
           LightSourceState.ready),
         Act.optimizerShutdown, Act.jetShutdown,
         Act.publish (Ev.stateChange LightSourceState.ready
           LightSourceState.off)]
      else
        [Act.optimizerShutdown, Act.jetShutdown,
         Act.publish (Ev.stateChange c.state LightSourceState.off)]) ∧
    ((c.powerOff).1.powerOff).1 = (c.powerOff).1 := by
  by_cases h : c.state = LightSourceState.emitting <;>
    simp [Controller.powerOff, Controller.stopEmission, Controller.updateState,
      QuantumJetSubsystem.shutdown, ShenquOptimizerSubsystem.shutdown,
      ShenquOptimizerSubsystem.stopRealTimeOptimization,
      PerformanceMonitor.stopPowerMonitoring, h]

/-- Claim C6, counterexample: the invariant current_power nonzero implies
state Emitting is not preserved by `calibrate`: invoked on a controller
that satisfies the invariant while Emitting at power 3, calibration
succeeds and moves the state to Ready but never zeroes `current_power`,
so afterwards the power is nonzero in a non-Emitting state. -/
theorem claim_C6_counterexample :
    PowerInv exEmitting ∧
    (exEmitting.calibrate).2.1 = true ∧
    (exEmitting.calibrate).1.currentPower ≠ 0 ∧
    (exEmitting.calibrate).1.state ≠ LightSourceState.emitting :=
  ⟨fun _ => rfl, rfl, by decide, by decide⟩

/-- Claim C6 as amended: the invariant current_power ≠ 0 → state =
Emitting is preserved by `power_on`, `power_off`, `stop_emission`,
`start_emission` and `set_power` from every state, and by `calibrate`
from every state other than Emitting (calibrate invoked while Emitting
breaks it, as the counterexample shows). -/
theorem claim_C6_amended (c : Controller) (hInv : PowerInv c) :
    PowerInv (c.powerOn).1 ∧
    PowerInv (c.powerOff).1 ∧
    PowerInv (c.stopEmission).1 ∧
    (∀ p : EmissionParameters, PowerInv (c.startEmission p).1) ∧
    (∀ q : ℚ, PowerInv (c.setPower q).1) ∧
    (c.state ≠ LightSourceState.emitting → PowerInv (c.calibrate).1) := by
  refine ⟨?_, ?_, ?_, ?_, ?_, ?_⟩
  · by_cases h : c.state = LightSourceState.off
    · have hp : c.currentPower = 0 := by
        by_contra hp
        have hs := hInv hp
        rw [h] at hs
        exact absurd hs (by simp)
      unfold PowerInv
      simp [Controller.powerOn, h, Controller.updateState,
        QuantumJetSubsystem.initialize, ShenquOptimizerSubsystem.warmUp,
        Controller.executeWarmupSequence, hp]
    · simpa [Controller.powerOn, h] using hInv
  · have hp : (c.powerOff).1.currentPower = 0 := by
      simp [Controller.powerOff]
    intro hq
    exact absurd hp hq
  · by_cases h : c.state = LightSourceState.emitting
    · have hp : (c.stopEmission).1.currentPower = 0 := by
        simp [Controller.stopEmission, h]
      intro hq
      exact absurd hp hq
    · simpa [Controller.stopEmission, h] using hInv
  · intro p
    by_cases hs : c.state = LightSourceState.ready
    · by_cases hv : validateEmissionParameters c.config p = true
      · have hst : (c.startEmission p).1.state = LightSourceState.emitting := by
          simp [Controller.startEmission, hs, hv,
            Controller.applyEmissionParameters, Controller.updateState,
            QuantumJetSubsystem.configureEmission,
            ShenquOptimizerSubsystem.configureOptimization,
            PerformanceMonitor.configureMonitoring,
            ShenquOptimizerSubsystem.startRealTimeOptimization,
            PerformanceMonitor.startPowerMonitoring]
        intro _
        exact hst
      · simpa [Controller.startEmission, hs, hv] using hInv
    · simpa [Controller.startEmission, hs] using hInv
  · intro q
    by_cases h1 : q < 0 ∨ q > c.config.maxPower
    · simpa [Controller.setPower, h1] using hInv
    · by_cases h2 : c.state = LightSourceState.emitting
      · have hst : (c.setPower q).1.state = LightSourceState.emitting := by
          simp [Controller.setPower, h1, h2,
            ShenquOptimizerSubsystem.adjustPower]
        intro _
        exact hst
      · simpa [Controller.setPower, h1, h2] using hInv
  · intro h
    have hp : c.currentPower = 0 := by
      by_contra hp
      exact h (hInv hp)
    have hkeep : (c.calibrate).1.currentPower = c.currentPower := by
      simp [Controller.calibrate, Controller.calibrateWith,
        Controller.updateState, QuantumJetSubsystem.calibrate,
        ShenquOptimizerSubsystem.calibrate, PerformanceMonitor.calibrateSensors]
    intro hq
    rw [hkeep, hp] at hq
    exact absurd rfl hq

/-- Witness for C6 as amended: from a Ready controller satisfying the
invariant, starting an emission preserves it. -/
theorem claim_C6_witness :
    PowerInv exReady ∧ PowerInv ((exReady.startEmission pStale1).1) :=
  ⟨fun h => absurd rfl h,
   (claim_C6_amended exReady (fun h => absurd rfl h)).2.2.2.1 pStale1⟩

/-- Claim C2 concerns the cancellation of the deferred auto-stop: the
source at line 282 starts `threading.Timer(duration, stop_emission)`
without keeping a handle, and neither `stop_emission` nor `power_off`
cancels it.  In this run the first emission's timer (due at time 5)
survives the manual stop at time 1: a second emission started at time 2
with duration 100 (its own auto-stop due at time 102) is Emitting at
power 2, and advancing the clock to time 5 fires the stale timer, which
finds the state Emitting and drops it to Ready at power 0 — the stale
timer stops a subsequent emission instead of being cancelled. -/
theorem claim_C2_stale_timer :
    (staleW.run staleCmds).ctrl.state = LightSourceState.emitting ∧
    (staleW.run staleCmds).ctrl.currentPower = 2 ∧
    (staleW.run staleCmds).timers = [5, 102] ∧
    ((staleW.run staleCmds).step (Cmd.advance 3)).now = 5 ∧
    ((staleW.run staleCmds).step (Cmd.advance 3)).ctrl.state =
      LightSourceState.ready ∧
    ((staleW.run staleCmds).step (Cmd.advance 3)).ctrl.currentPower = 0 ∧
    ((staleW.run staleCmds).step (Cmd.advance 3)).timers = [102] := by
  norm_num [World.run, World.step, staleCmds, staleW, pStale1, pStale2,
    exReady, exCfg, fireDue, Controller.startEmission,
    Controller.stopEmission, validateEmissionParameters,
    Controller.applyEmissionParameters, Controller.updateState,
    QuantumJetSubsystem.configureEmission,
    ShenquOptimizerSubsystem.configureOptimization,
    PerformanceMonitor.configureMonitoring,
    ShenquOptimizerSubsystem.startRealTimeOptimization,
    ShenquOptimizerSubsystem.stopRealTimeOptimization,
    PerformanceMonitor.startPowerMonitoring,
    PerformanceMonitor.stopPowerMonitoring, List.filter, List.foldl]

end QuantumLight
